import Mathlib

/-!
Verification of the data/metrics scaffolding in `aligner_sw_common.h`:
the `SwResult` alignment-result record, the `SwMetrics` shared counter
aggregator, the `SwCounters` per-invocation counters, and the
counter/action sinks.  C++ `uint64_t` values are embedded as `Nat`s with
explicit reduction modulo `2 ^ 64` wherever the code performs arithmetic.
-/

namespace Bowtie2

/-- The modulus of C++ `uint64_t` arithmetic. -/
def U64MOD : Nat := 2 ^ 64

/-- C++ `uint64_t` addition: the sum wraps silently modulo `2 ^ 64`. -/
def u64add (a b : Nat) : Nat := (a + b) % U64MOD

/-- Modelled from the spec: `AlnRes` is declared in `aligner_result.h`,
which is not under src/.  Per the spec it owns one ordered sequence of
nucleotide edits, one of ambiguous-reference-resolution edits, one of
color edits and a subset marked as color miscalls, plus the best and
(optional) second-best scores.  Individual edits are abstracted as
natural numbers; scores as integers. -/
structure AlnRes where
  ned : List Nat
  aed : List Nat
  ced : List Nat
  cedMisc : List Nat
  best : Option Int
  secbest : Option Int
deriving DecidableEq

/-- Modelled from the spec: `AlnRes::reset` clears all edit lists and
scores so the buffer can be reused across attempts. -/
def AlnRes.reset (_a : AlnRes) : AlnRes :=
  ⟨[], [], [], [], none, none⟩

/-- Modelled from the spec: `AlnRes::reverseEdits` reverses every owned
edit list in place. -/
def AlnRes.reverseEdits (a : AlnRes) : AlnRes :=
  { a with
    ned := a.ned.reverse
    aed := a.aed.reverse
    ced := a.ced.reverse
    cedMisc := a.cedMisc.reverse }

/-- Modelled from the spec: `AlnRes::empty` reports whether any alignment
result has been installed, i.e. whether a best score is present. -/
def AlnRes.empty (a : AlnRes) : Bool := a.best.isNone

/-- `SwResult` (src/aligner_sw_common.h:25-82): the owned alignment
result `alres`, eight `uint64_t` work counters, and the two decoded
colorspace nucleotides `nup` and `ndn` (`int` fields). -/
structure SwResult where
  alres : AlnRes
  sws : Nat
  swcups : Nat
  swrows : Nat
  swskiprows : Nat
  swskip : Nat
  swsucc : Nat
  swfail : Nat
  swbts : Nat
  nup : Int
  ndn : Int
deriving DecidableEq

/-- The `SwResult()` default constructor (lines 27-37): it
default-constructs `alres` and zero-initializes the eight counters; the
fields `nup` and `ndn` do not appear in the initializer list, so they
hold indeterminate values.  The embedding therefore takes the
default-constructed `alres` (whose constructor is outside src/) and the
two indeterminate values as parameters. -/
def SwResult.construct (a0 : AlnRes) (nup0 ndn0 : Int) : SwResult :=
  ⟨a0, 0, 0, 0, 0, 0, 0, 0, 0, nup0, ndn0⟩

/-- `SwResult::reset` (lines 42-46): zero the eight counters and reset
`alres`.  `nup` and `ndn` are not touched. -/
def SwResult.reset (r : SwResult) : SwResult :=
  { r with
    sws := 0
    swcups := 0
    swrows := 0
    swskiprows := 0
    swskip := 0
    swsucc := 0
    swfail := 0
    swbts := 0
    alres := r.alres.reset }

/-- `SwResult::reverse` (lines 51-53): delegate to
`alres.reverseEdits()`. -/
def SwResult.reverse (r : SwResult) : SwResult :=
  { r with alres := r.alres.reverseEdits }

/-- `SwResult::empty` (lines 58-60): delegate to `alres.empty()`. -/
def SwResult.empty (r : SwResult) : Bool := r.alres.empty

/-- The counter state of `SwMetrics` (src/aligner_sw_common.h:88-162):
nine `uint64_t` counters.  The `MUTEX_T lock` member carries no counter
data and is modelled separately where locking behaviour matters. -/
structure SwMetrics where
  sws : Nat
  swcups : Nat
  swrows : Nat
  swskiprows : Nat
  swskip : Nat
  swsucc : Nat
  swfail : Nat
  swbts : Nat
  rshit : Nat
deriving DecidableEq

/-- All nine counters hold representable `uint64_t` values. -/
def SwMetrics.Wf (m : SwMetrics) : Prop :=
  m.sws < U64MOD ∧ m.swcups < U64MOD ∧ m.swrows < U64MOD ∧
  m.swskiprows < U64MOD ∧ m.swskip < U64MOD ∧ m.swsucc < U64MOD ∧
  m.swfail < U64MOD ∧ m.swbts < U64MOD ∧ m.rshit < U64MOD

instance : DecidablePred SwMetrics.Wf := fun m => by
  unfold SwMetrics.Wf
  infer_instance

/-- `SwMetrics::reset` (lines 92-95): set all nine counters to zero. -/
def SwMetrics.reset (_m : SwMetrics) : SwMetrics :=
  ⟨0, 0, 0, 0, 0, 0, 0, 0, 0⟩

/-- `SwMetrics::init` (lines 97-117): set all nine counters
explicitly. -/
def SwMetrics.init (_m : SwMetrics)
    (sws_ swcups_ swrows_ swskiprows_ swskip_ swsucc_ swfail_ swbts_
      rshit_ : Nat) : SwMetrics :=
  ⟨sws_, swcups_, swrows_, swskiprows_, swskip_, swsucc_, swfail_,
    swbts_, rshit_⟩

/-- `SwMetrics::update` (lines 123-132): add the eight counters of an
`SwResult` into this object.  `rshit` is not touched and no lock is
taken. -/
def SwMetrics.update (m : SwMetrics) (r : SwResult) : SwMetrics :=
  { m with
    sws := u64add m.sws r.sws
    swcups := u64add m.swcups r.swcups
    swrows := u64add m.swrows r.swrows
    swskiprows := u64add m.swskiprows r.swskiprows
    swskip := u64add m.swskip r.swskip
    swsucc := u64add m.swsucc r.swsucc
    swfail := u64add m.swfail r.swfail
    swbts := u64add m.swbts r.swbts }

/-- `SwMetrics::merge` (lines 139-150): add all nine counters of another
`SwMetrics` into this object.  The named guard
`ThreadSafe ts(&lock, getLock)` is held for the whole body, so the lock
argument affects serialization only, never the counter values. -/
def SwMetrics.merge (m : SwMetrics) (r : SwMetrics) (_getLock : Bool) :
    SwMetrics :=
  ⟨u64add m.sws r.sws,
    u64add m.swcups r.swcups,
    u64add m.swrows r.swrows,
    u64add m.swskiprows r.swskiprows,
    u64add m.swskip r.swskip,
    u64add m.swsucc r.swsucc,
    u64add m.swfail r.swfail,
    u64add m.swbts r.swbts,
    u64add m.rshit r.rshit⟩

/-- `SwCounters` (src/aligner_sw_common.h:167-177): two `uint64_t`
counters, cell updates and backtracks. -/
structure SwCounters where
  cups : Nat
  bts : Nat
deriving DecidableEq

/-- `SwAction` (src/aligner_sw_common.h:182-183): an empty abstract
parent struct. -/
structure SwAction where
deriving DecidableEq

/-- One operation performed on a C++ `std::ostream`: writing a string,
or forcing a flush (as `std::endl` would). -/
inductive StreamOp where
  | write (s : String)
  | flush
deriving DecidableEq

/-- The text a sequence of stream operations leaves on the stream. -/
def opsText (ops : List StreamOp) : String :=
  ops.foldl
    (fun acc op =>
      match op with
      | StreamOp.write s => acc ++ s
      | StreamOp.flush => acc) ""

/-- Whether a sequence of stream operations forces a flush. -/
def hasFlush (ops : List StreamOp) : Bool :=
  ops.any fun op =>
    match op with
    | StreamOp.write _ => false
    | StreamOp.flush => true

/-- The number of newline characters one stream operation writes. -/
def opNewlineCount : StreamOp → Nat
  | StreamOp.write s => s.toList.count '\n'
  | StreamOp.flush => 0

/-- The number of newline characters a sequence of stream operations
writes. -/
def newlineCount (ops : List StreamOp) : Nat :=
  (ops.map opNewlineCount).sum

/-- `StreamTabSwCounterSink::reportCountersImpl`
(src/aligner_sw_common.h:213-217): `os_ << c.cups << "\t" << c.bts
<< "\n";` — four insertions, no `endl`, hence no forced flush. -/
def StreamTabSwCounterSink.reportCountersImpl (c : SwCounters) :
    List StreamOp :=
  [StreamOp.write (toString c.cups), StreamOp.write "\t",
    StreamOp.write (toString c.bts), StreamOp.write "\n"]

/-- `StreamTabSwActionSink::reportActionsImpl`
(src/aligner_sw_common.h:250-255): a loop over `as` that writes `"\n"`
once per element, no `endl`. -/
def StreamTabSwActionSink.reportActionsImpl (acts : List SwAction) :
    List StreamOp :=
  acts.map fun _ => StreamOp.write "\n"

/-- Lock/hook events emitted by one call to a sink's public report
method. -/
inductive SinkEvent where
  | acquire
  | release
  | hook
deriving DecidableEq

/-- Depth-tracking core of `heldAtHook`: walk the event list keeping the
current lock depth; answer whether the depth is positive when the hook
event is reached. -/
def heldAtHookGo : List SinkEvent → Nat → Bool
  | [], _ => false
  | SinkEvent.acquire :: rest, d => heldAtHookGo rest (d + 1)
  | SinkEvent.release :: rest, d => heldAtHookGo rest (d - 1)
  | SinkEvent.hook :: _, d => decide (0 < d)

/-- Whether the lock is held at the moment the virtual hook runs. -/
def heldAtHook (evs : List SinkEvent) : Bool := heldAtHookGo evs 0

/-- Event trace of `SwCounterSink::reportCounters`
(src/aligner_sw_common.h:196-199).  The body is
`ThreadSafe(&this->lock_); reportCountersImpl(c);` — the `ThreadSafe`
guard is an *unnamed temporary*, so by C++ lifetime rules its destructor
runs at the end of the first full expression: the lock (modelled from
the spec, since `ThreadSafe` lives in a header outside src/: its
constructor acquires the lock, its destructor releases it) is acquired
and immediately released before `reportCountersImpl(c)` executes. -/
def SwCounterSink.reportCountersTrace : List SinkEvent :=
  [SinkEvent.acquire, SinkEvent.release, SinkEvent.hook]

/-- Event trace of `SwActionSink::reportActions`
(src/aligner_sw_common.h:232-235): same unnamed-temporary pattern
`ThreadSafe(&this->lock_); reportActionsImpl(as);`, so the lock is
released before the hook runs. -/
def SwActionSink.reportActionsTrace : List SinkEvent :=
  [SinkEvent.acquire, SinkEvent.release, SinkEvent.hook]

/-- The trace the spec describes: acquire the lock, invoke the hook
while it is held, release it only after the hook returns. -/
def specSinkReportTrace : List SinkEvent :=
  [SinkEvent.acquire, SinkEvent.hook, SinkEvent.release]

/-- C1: `m.merge(r, lockRequired)` adds each of `r`'s nine counters
(sws, swcups, swrows, swskiprows, swskip, swsucc, swfail, swbts, rshit)
into `m`'s corresponding counter — the addition being `uint64_t`
addition — and the nine counters are the whole of `m`'s counter state,
so nothing else of it changes. -/
theorem merge_adds_all_nine_counters (m r : SwMetrics) (b : Bool) :
    (m.merge r b).sws = u64add m.sws r.sws ∧
      (m.merge r b).swcups = u64add m.swcups r.swcups ∧
      (m.merge r b).swrows = u64add m.swrows r.swrows ∧
      (m.merge r b).swskiprows = u64add m.swskiprows r.swskiprows ∧
      (m.merge r b).swskip = u64add m.swskip r.swskip ∧
      (m.merge r b).swsucc = u64add m.swsucc r.swsucc ∧
      (m.merge r b).swfail = u64add m.swfail r.swfail ∧
      (m.merge r b).swbts = u64add m.swbts r.swbts ∧
      (m.merge r b).rshit = u64add m.rshit r.rshit :=
  ⟨rfl, rfl, rfl, rfl, rfl, rfl, rfl, rfl, rfl⟩

/-- C2: `m.update(r)` adds each of `r`'s eight per-invocation counters
(sws, swcups, swrows, swskiprows, swskip, swsucc, swfail, swbts) into
`m`'s corresponding running total, with `uint64_t` addition. -/
theorem update_adds_eight_counters (m : SwMetrics) (r : SwResult) :
    (m.update r).sws = u64add m.sws r.sws ∧
      (m.update r).swcups = u64add m.swcups r.swcups ∧
      (m.update r).swrows = u64add m.swrows r.swrows ∧
      (m.update r).swskiprows = u64add m.swskiprows r.swskiprows ∧
      (m.update r).swskip = u64add m.swskip r.swskip ∧
      (m.update r).swsucc = u64add m.swsucc r.swsucc ∧
      (m.update r).swfail = u64add m.swfail r.swfail ∧
      (m.update r).swbts = u64add m.swbts r.swbts :=
  ⟨rfl, rfl, rfl, rfl, rfl, rfl, rfl, rfl⟩

/-- C3: after `r.reset()` every one of the eight work counters reads
zero and `r.empty()` returns true. -/
theorem reset_zeroes_counters_and_empties (r : SwResult) :
    r.reset.sws = 0 ∧ r.reset.swcups = 0 ∧ r.reset.swrows = 0 ∧
      r.reset.swskiprows = 0 ∧ r.reset.swskip = 0 ∧ r.reset.swsucc = 0 ∧
      r.reset.swfail = 0 ∧ r.reset.swbts = 0 ∧ r.reset.empty = true :=
  ⟨rfl, rfl, rfl, rfl, rfl, rfl, rfl, rfl, rfl⟩

/-- C4: the claim says the lock is held while the hook runs, but in the
code the `ThreadSafe` guard is an unnamed temporary destroyed at the end
of its own statement, so both sinks invoke their hook *after* the lock
has been released; the spec's intended trace does hold the lock at the
hook. -/
theorem sink_lock_released_before_hook :
    heldAtHook SwCounterSink.reportCountersTrace = false ∧
      heldAtHook SwActionSink.reportActionsTrace = false ∧
      heldAtHook specSinkReportTrace = true := by
  decide

/-- C5: merging a freshly-reset (all-zero) aggregator into `m` leaves
every counter of `m` unchanged, provided `m`'s counters hold
representable `uint64_t` values. -/
theorem merge_reset_is_identity (m z : SwMetrics) (b : Bool)
    (h : m.Wf) : m.merge (z.reset) b = m := by
  cases m with
  | mk s1 s2 s3 s4 s5 s6 s7 s8 s9 =>
    simp only [SwMetrics.Wf] at h
    obtain ⟨h1, h2, h3, h4, h5, h6, h7, h8, h9⟩ := h
    simp only [SwMetrics.merge, SwMetrics.reset, u64add, Nat.add_zero,
      SwMetrics.mk.injEq]
    exact ⟨Nat.mod_eq_of_lt h1, Nat.mod_eq_of_lt h2, Nat.mod_eq_of_lt h3,
      Nat.mod_eq_of_lt h4, Nat.mod_eq_of_lt h5, Nat.mod_eq_of_lt h6,
      Nat.mod_eq_of_lt h7, Nat.mod_eq_of_lt h8, Nat.mod_eq_of_lt h9⟩

/-- Witness for C5 at a concrete aggregator. -/
theorem merge_reset_is_identity_witness :
    (SwMetrics.mk 1 2 3 4 5 6 7 8 9).Wf ∧
      SwMetrics.merge (SwMetrics.mk 1 2 3 4 5 6 7 8 9)
          (SwMetrics.reset (SwMetrics.mk 7 0 7 0 7 0 7 0 7)) true =
        SwMetrics.mk 1 2 3 4 5 6 7 8 9 :=
  ⟨by decide,
    merge_reset_is_identity (SwMetrics.mk 1 2 3 4 5 6 7 8 9)
      (SwMetrics.mk 7 0 7 0 7 0 7 0 7) true (by decide)⟩

/-- C6: `reverse()` applied twice returns every edit list — and hence
the whole result — to its original state. -/
theorem reverse_involutive (r : SwResult) : r.reverse.reverse = r := by
  cases r with
  | mk a s1 s2 s3 s4 s5 s6 s7 s8 n1 n2 =>
    cases a
    simp [SwResult.reverse, AlnRes.reverseEdits]

/-- C7: the counter sink writes exactly `c.cups`, a tab, `c.bts` and a
newline, forcing no flush; the action sink writes exactly one newline
per action and forces no flush. -/
theorem stream_sinks_output_format (c : SwCounters)
    (acts : List SwAction) :
    opsText (StreamTabSwCounterSink.reportCountersImpl c) =
        toString c.cups ++ "\t" ++ toString c.bts ++ "\n" ∧
      hasFlush (StreamTabSwCounterSink.reportCountersImpl c) = false ∧
      newlineCount (StreamTabSwActionSink.reportActionsImpl acts) =
        acts.length ∧
      hasFlush (StreamTabSwActionSink.reportActionsImpl acts) = false := by
  refine ⟨rfl, rfl, ?_, ?_⟩
  · induction acts with
    | nil => rfl
    | cons a t ih =>
      simp [newlineCount, StreamTabSwActionSink.reportActionsImpl,
        opNewlineCount] at ih ⊢
      omega
  · simp [hasFlush, StreamTabSwActionSink.reportActionsImpl]

/-- C8: `reset()` leaves `nup` and `ndn` unchanged, and the default
constructor does not initialize them (whatever indeterminate values they
hold are kept). -/
theorem reset_preserves_nup_ndn (r : SwResult) (a0 : AlnRes)
    (nup0 ndn0 : Int) :
    r.reset.nup = r.nup ∧ r.reset.ndn = r.ndn ∧
      (SwResult.construct a0 nup0 ndn0).nup = nup0 ∧
      (SwResult.construct a0 nup0 ndn0).ndn = ndn0 :=
  ⟨rfl, rfl, rfl, rfl⟩

/-- C9: `m.update(r)` leaves the `rshit` counter unchanged. -/
theorem update_preserves_rshit (m : SwMetrics) (r : SwResult) :
    (m.update r).rshit = m.rshit :=
  rfl

/-- C10: counter additions in `update` and `merge` are arithmetic modulo
`2 ^ 64` with no overflow check, and a sum exceeding `2 ^ 64 - 1` wraps
silently to the low 64 bits (here, to zero). -/
theorem counters_wrap_mod_two_pow_64 :
    (∀ (m n : SwMetrics) (b : Bool),
        (m.merge n b).swcups = (m.swcups + n.swcups) % 2 ^ 64) ∧
      (∀ (m : SwMetrics) (r : SwResult),
        (m.update r).swcups = (m.swcups + r.swcups) % 2 ^ 64) ∧
      (SwMetrics.merge (SwMetrics.mk (2 ^ 64 - 1) 0 0 0 0 0 0 0 0)
          (SwMetrics.mk 1 0 0 0 0 0 0 0 0) false).sws = 0 := by
  refine ⟨fun m n b => rfl, fun m r => rfl, ?_⟩
  decide

end Bowtie2
